import Mathlib

/-!
Verification of the duels-analyzer synchronization, transformation and
analytics pipeline.  The definitions below are shallow embeddings of the
Python source in `src/cache.py`, `src/processor.py`, `src/analytics.py`
and `src/models.py`: pandas DataFrames become lists of records, machine
floats become rationals, `None` becomes `Option`, and Python exceptions
become an `Except` error monad.
-/

namespace DuelsAnalyzer

/-- Python exception kinds that the embedded code can raise. -/
inductive PyErr where
  | indexError
  | keyError
  | attributeError
deriving DecidableEq, Repr

/-- Python `d[k]` on an optional value: raises `KeyError` when absent. -/
def getKey {α : Type} : Option α → Except PyErr α
  | some a => .ok a
  | none => .error .keyError

/-- Python `l[i]`: raises `IndexError` when the index is out of range. -/
def listAt {α : Type} : List α → Nat → Except PyErr α
  | [], _ => .error .indexError
  | a :: _, 0 => .ok a
  | _ :: as, n + 1 => listAt as n

/-- One flat cache record (`GameResult.to_flat_rows` output), restricted to
the columns the verified claims touch.  The date column is modelled as an
integer timestamp (the column is totally ordered by `sort_values`); the
rating column holds exact integer ratings — the claims about this table
concern ordering and null handling, not fractional arithmetic. -/
structure Row where
  gameId : String
  roundNumber : Int
  date : Int
  gameWon : Option Bool
  yourRating : Option ℤ
deriving DecidableEq, Repr

/-- The `(gameId, roundNumber)` dedup key of `drop_duplicates` in `sync_data`. -/
def keyOf (r : Row) : String × Int := (r.gameId, r.roundNumber)

/-- `df_combined.drop_duplicates(subset=["Game Id", "Round Number"])` with the
pandas default `keep="first"`: retain the first occurrence of each key,
preserving row order. -/
def dedupKeyFirst : List Row → List Row
  | [] => []
  | r :: rs => r :: dedupKeyFirst (rs.filter fun s => !(keyOf s = keyOf r : Bool))
termination_by l => l.length
decreasing_by
  simpa using Nat.lt_succ_of_le (List.length_filter_le _ _)

/-- `tokens_to_fetch = [t for t in remote_tokens if t not in existing_ids]`
where `existing_ids` is the set of `Game Id` values of the existing table. -/
def tokensToFetch (existing : List Row) (remote : List String) : List String :=
  remote.filter fun t => !(existing.map (·.gameId)).contains t

/-- Result of one `sync_data` invocation: the merged table, the reported
new-record count, and whether the merge-and-persist path ran
(`save_cache` is only reached on that path). -/
structure SyncOutcome where
  table : List Row
  newCount : Nat
  persistCalled : Bool
deriving Repr

/-- The cache-diff / merge portion of `sync_data` (src/cache.py lines 92-119).
`fetch` abstracts `get_game_details` + `process_game` + `to_flat_rows` for one
token: a fetch failure or a `None` transformer result contributes no rows
(the `except` branch logs and continues). -/
def sync_data (existing : List Row) (remote : List String)
    (fetch : String → List Row) : SyncOutcome :=
  let tf := tokensToFetch existing remote
  if tf.isEmpty then
    ⟨existing, 0, false⟩
  else
    let newRows := tf.flatMap fetch
    let combined := if existing.isEmpty then newRows else existing ++ newRows
    ⟨dedupKeyFirst combined, tf.length, true⟩

/-- Run a sequence of syncs starting from a table (each batch is a remote
token list paired with its fetch behaviour). -/
def syncFold (init : List Row) (batches : List (List String × (String → List Row))) :
    List Row :=
  batches.foldl (fun t b => (sync_data t b.1 b.2).table) init

/-! ### Game transformer (src/processor.py)

The raw match JSON is embedded structurally: each field the transformer reads
becomes an `Option` field (`.get` access) or a required field; `[...]`
subscripting on a possibly-missing key or an out-of-range index raises. -/

/-- `rounds[i].startTime` and similar sub-objects of a raw round. -/
structure RawPano where
  countryCode : Option String
  lat : Option ℚ
  lng : Option ℚ
deriving DecidableEq, Repr

/-- One element of the raw `rounds` array. -/
structure RawRound where
  roundNumber : Option Int
  startTime : Option String
  panorama : Option RawPano
  damageMultiplier : Option ℚ
deriving DecidableEq, Repr

/-- One element of a player's raw `guesses` array. -/
structure RawGuess where
  roundNumber : Option Int
  lat : Option ℚ
  lng : Option ℚ
  distance : Option ℚ
  score : Option Int
deriving DecidableEq, Repr

/-- `competitiveProgress` / `rankedSystemProgress` sub-object. -/
structure RawSubProgress where
  ratingAfter : Option ℚ
deriving DecidableEq, Repr

/-- A player's `progressChange` sub-object. -/
structure RawProgressChange where
  competitiveProgress : Option RawSubProgress
  rankedSystemProgress : Option RawSubProgress
deriving DecidableEq, Repr

/-- One element of a team's raw `players` array. -/
structure RawPlayer where
  playerId : Option String
  countryCode : Option String
  guesses : Option (List RawGuess)
  progressChange : Option RawProgressChange
  rating : Option ℚ
deriving DecidableEq, Repr

/-- One element of the raw `teams` array. -/
structure RawTeam where
  players : List RawPlayer
  health : Option ℚ
deriving DecidableEq, Repr

/-- The raw `options.map` sub-object. -/
structure RawMap where
  name : Option String
deriving DecidableEq, Repr

/-- The raw `options.movementOptions` sub-object. -/
structure RawMoveOpts where
  forbidMoving : Option Bool
  forbidZooming : Option Bool
  forbidRotating : Option Bool
deriving DecidableEq, Repr

/-- The raw `options` sub-object. -/
structure RawOptions where
  map : Option RawMap
  competitiveGameMode : Option String
  movementOptions : Option RawMoveOpts
deriving DecidableEq, Repr

/-- The raw match JSON consumed by `process_game`. -/
structure RawGame where
  teams : Option (List RawTeam)
  gameId : Option String
  rounds : Option (List RawRound)
  options : Option RawOptions
  currentRoundNumber : Option Int
deriving DecidableEq, Repr

/-- `RoundResult` of src/models.py, with its two derived properties inlined
where `to_flat_rows` computes them. -/
structure RoundResult where
  round_number : Int
  country : String
  country_code : String
  latitude : ℚ
  longitude : ℚ
  damage_multiplier : Option ℚ
  your_lat : ℚ
  your_lng : ℚ
  your_distance_km : ℚ
  your_score : Int
  opp_lat : ℚ
  opp_lng : ℚ
  opp_distance_km : ℚ
  opp_score : Int
deriving DecidableEq, Repr

/-- `GameResult` of src/models.py. -/
structure GameResult where
  game_id : String
  date : Option String
  map_name : String
  game_mode : String
  moving : Bool
  zooming : Bool
  rotating : Bool
  opponent_id : String
  opponent_country : String
  your_rating : Option ℚ
  opponent_rating : Option ℚ
  game_won : Option Bool
  your_health : Option ℚ
  opp_health : Option ℚ
  rounds : List RoundResult
deriving DecidableEq, Repr

/-- `get_country_name`: the module-level `COUNTRIES` dict falls back to `{}`
when `data/countries.json` is unavailable (the module's own except branch), so
lookup always misses and the code returns the upper-cased code. -/
def get_country_name (code : String) : String :=
  if code = "" then "Unknown" else code.toUpper

/-- `_extract_rating` (src/processor.py lines 41-64): competitive post-rating,
then ranked post-rating, then the raw `rating` field only when nonzero,
else `None`.  `team["players"][0]` raises on an empty player list. -/
def _extract_rating (team : RawTeam) : Except PyErr (Option ℚ) := do
  let player ← listAt team.players 0
  let fromPc : Option ℚ :=
    match player.progressChange with
    | none => none
    | some pc =>
      match pc.competitiveProgress.bind (·.ratingAfter) with
      | some v => some v
      | none => pc.rankedSystemProgress.bind (·.ratingAfter)
  match fromPc with
  | some v => return some v
  | none =>
    match player.rating with
    | some b => if b ≠ 0 then return some b else return none
    | none => return none

/-- The health-based outcome derivation of `process_game`
(src/processor.py lines 130-139). -/
def game_won_of (myHealth oppHealth : Option ℚ) : Option Bool :=
  match myHealth, oppHealth with
  | some m, some o =>
    if m > 0 ∧ o ≤ 0 then some true
    else if o > 0 ∧ m ≤ 0 then some false
    else none
  | _, _ => none

/-- `_get_guess`: scan the first player's guess list for a matching
`roundNumber`; a missing guess yields `{}` (all defaults). -/
def _get_guess (team : RawTeam) (round_num : Int) : Except PyErr RawGuess := do
  let p ← listAt team.players 0
  let gs := p.guesses.getD []
  return (gs.find? fun g => g.roundNumber = some round_num).getD
    ⟨none, none, none, none, none⟩

/-- One iteration of the round loop of `process_game`
(src/processor.py lines 158-191). -/
def process_round (rounds_data : List RawRound) (my_team opp_team : RawTeam)
    (i : Nat) : Except PyErr RoundResult := do
  let rnd ← listAt rounds_data i
  let round_num := rnd.roundNumber.getD ((i : Int) + 1)
  let pano := rnd.panorama.getD ⟨none, none, none⟩
  let country_code := pano.countryCode.getD ""
  let my_guess ← _get_guess my_team round_num
  let opp_guess ← _get_guess opp_team round_num
  return {
    round_number := round_num
    country := get_country_name country_code
    country_code := country_code
    latitude := pano.lat.getD 0
    longitude := pano.lng.getD 0
    damage_multiplier := rnd.damageMultiplier
    your_lat := my_guess.lat.getD 0
    your_lng := my_guess.lng.getD 0
    your_distance_km := my_guess.distance.getD 0 / 1000
    your_score := my_guess.score.getD 0
    opp_lat := opp_guess.lat.getD 0
    opp_lng := opp_guess.lng.getD 0
    opp_distance_km := opp_guess.distance.getD 0 / 1000
    opp_score := opp_guess.score.getD 0 }

/-- `process_game` (src/processor.py lines 94-193): `.ok none` models the
Python `return None` skip result, `.error` a raised exception. -/
def process_game (game_data : RawGame) (my_player_id : String) :
    Except PyErr (Option GameResult) := do
  let teams := game_data.teams.getD []
  if teams.length < 2 then
    return none
  else do
    let t0 ← listAt teams 0
    let p00 ← listAt t0.players 0
    let pid0 ← getKey p00.playerId
    let my_team_idx := if pid0 = my_player_id then 0 else 1
    let opp_team_idx := 1 - my_team_idx
    let my_team ← listAt teams my_team_idx
    let opp_team ← listAt teams opp_team_idx
    if game_data.gameId = none ∨ game_data.gameId = some "" then
      return none
    else do
      let game_id := (game_data.gameId).getD ""
      let rounds_data := game_data.rounds.getD []
      let first_round_time :=
        match rounds_data with
        | [] => none
        | r :: _ => r.startTime
      let options := game_data.options.getD ⟨none, none, none⟩
      let map_name := ((options.map.getD ⟨none⟩).name).getD "Unknown"
      let game_mode := options.competitiveGameMode.getD "Unknown"
      let move_opts := options.movementOptions.getD ⟨none, none, none⟩
      let opp_player ← listAt opp_team.players 0
      let my_rating ← _extract_rating my_team
      let opp_rating ← _extract_rating opp_team
      let current_round_num :=
        (game_data.currentRoundNumber.getD (rounds_data.length : Int)).toNat
      let loop_count := min current_round_num rounds_data.length
      let rounds ← (List.range loop_count).mapM
        (process_round rounds_data my_team opp_team)
      return some {
        game_id := game_id
        date := first_round_time
        map_name := map_name
        game_mode := game_mode
        moving := !(move_opts.forbidMoving.getD false)
        zooming := !(move_opts.forbidZooming.getD false)
        rotating := !(move_opts.forbidRotating.getD false)
        opponent_id := opp_player.playerId.getD "Unknown"
        opponent_country := get_country_name (opp_player.countryCode.getD "")
        your_rating := my_rating
        opponent_rating := opp_rating
        game_won := game_won_of my_team.health opp_team.health
        your_health := my_team.health
        opp_health := opp_team.health
        rounds := rounds }

/-- The spec's rating-priority description, for comparison with
`_extract_rating`: competitive-progress post-rating if present, otherwise
ranked-system post-rating if present, otherwise the raw `rating` field only
when present and nonzero, otherwise `none`. -/
def rating_priority_spec (p : RawPlayer) : Option ℚ :=
  match (p.progressChange.bind (·.competitiveProgress)).bind (·.ratingAfter) with
  | some v => some v
  | none =>
    match (p.progressChange.bind (·.rankedSystemProgress)).bind (·.ratingAfter) with
    | some v => some v
    | none =>
      match p.rating with
      | some b => if b ≠ 0 then some b else none
      | none => none

/-! ### Token extractor (src/processor.py lines 30-91) -/

/-- A decoded JSON value, as produced by `json.loads` on a feed payload. -/
inductive Json where
  | null
  | bool (b : Bool)
  | num (q : ℚ)
  | str (s : String)
  | arr (items : List Json)
  | obj (fields : List (String × Json))

/-- Python `dict.get(k)` on a decoded JSON object. -/
def jlookup (fields : List (String × Json)) (k : String) : Option Json :=
  (fields.find? fun f => f.1 == k).map (·.2)

/-- `_is_duel`: on a dict, test `gameMode == "Duels"` and the presence of
`competitiveGameMode`; on any non-dict value, `.get` raises
`AttributeError`. -/
def _is_duel : Json → Except PyErr Bool
  | .obj fields =>
    .ok ((match jlookup fields "gameMode" with
          | some (.str s) => s == "Duels"
          | _ => false) &&
         (jlookup fields "competitiveGameMode").isSome)
  | _ => .error .attributeError

/-- One feed entry's `payload` string after the decode step: absent/falsy,
not valid JSON (`json.JSONDecodeError`), or the decoded value. -/
inductive RawPayload where
  | missing
  | notJson
  | val (j : Json)

/-- One raw feed entry as consumed by `extract_duel_tokens`. -/
structure RawEntry where
  payload : RawPayload

/-- The inner loop over a batched (list-shaped) payload: each wrapper dict
with a `payload` key is tested by `_is_duel` and its `gameId` collected.
The final non-dict fallback inside the `then` branch is unreachable since
`_is_duel` only returns `true` on a dict. -/
def duelTokensOfItems (items : List Json) (tokens : List Json) :
    Except PyErr (List Json) :=
  items.foldlM (fun acc item =>
    match item with
    | .obj ifs =>
      match jlookup ifs "payload" with
      | some sub => do
        let d ← _is_duel sub
        if d then
          match sub with
          | .obj sfs => do
            let gid ← getKey (jlookup sfs "gameId")
            pure (acc ++ [gid])
          | _ => pure acc
        else pure acc
      | none => pure acc
    | _ => pure acc) tokens

/-- Python truthiness test `if limit and len(tokens) >= limit`. -/
def extractLimitHit (limit : Option Nat) (n : Nat) : Bool :=
  match limit with
  | some l => decide (l ≠ 0) && decide (n ≥ l)
  | none => false

/-- The entry loop of `extract_duel_tokens`, accumulating tokens. -/
def extract_duel_tokens_go (limit : Option Nat) :
    List RawEntry → List Json → Except PyErr (List Json)
  | [], tokens => .ok tokens
  | e :: rest, tokens => do
    let tokens' ←
      match e.payload with
      | .missing => pure tokens
      | .notJson => pure tokens
      | .val (.obj fs) => do
        let d ← _is_duel (.obj fs)
        if d then do
          let gid ← getKey (jlookup fs "gameId")
          pure (tokens ++ [gid])
        else pure tokens
      | .val (.arr items) => duelTokensOfItems items tokens
      | .val _ => pure tokens
    if extractLimitHit limit tokens'.length then
      pure (tokens'.take (limit.getD 0))
    else
      extract_duel_tokens_go limit rest tokens'

/-- `extract_duel_tokens` (src/processor.py lines 67-91). -/
def extract_duel_tokens (entries : List RawEntry) (limit : Option Nat := none) :
    Except PyErr (List Json) :=
  extract_duel_tokens_go limit entries []

/-! ### Analytics engine (src/analytics.py)

pandas semantics embedded here: `sort_values("Date")` is a sort by the date
column; `groupby(key)` with the default `sort=True` emits one group per
distinct key *in ascending key order*; `GroupBy.first()` takes the first
non-null value of a column within each group; `.dropna()` removes null
entries, preserving order. -/

/-- Insert into a sorted list, keeping an earlier-inserted element before
later equal ones (a stable sort step). -/
def insertSortedBy {α : Type} (lt : α → α → Bool) : α → List α → List α
  | x, [] => [x]
  | x, y :: ys => if lt y x then y :: insertSortedBy lt x ys else x :: y :: ys

/-- Stable insertion sort with a strict boolean comparator. -/
def sortedBy {α : Type} (lt : α → α → Bool) : List α → List α
  | [] => []
  | x :: xs => insertSortedBy lt x (sortedBy lt xs)

/-- `df.sort_values("Date")`. -/
def sortValuesDate (rows : List Row) : List Row :=
  sortedBy (fun a b => decide (a.date < b.date)) rows

/-- The distinct `Game Id` keys in ascending (lexicographic) order — the
group order produced by `groupby("Game Id", sort=True)`. -/
def groupKeysSorted (rows : List Row) : List String :=
  sortedBy (fun a b => compare a b == Ordering.lt) (rows.map (·.gameId)).dedup

/-- `df.sort_values("Date").groupby("Game Id")["Game Won"].first().dropna()`
(src/analytics.py line 111): outcome per game, in ascending `Game Id`
order. -/
def groupFirstGameWon (rows : List Row) : List Bool :=
  let s := sortValuesDate rows
  ((groupKeysSorted s).map fun k =>
    (s.filter fun r => r.gameId == k).findSome? (·.gameWon)).filterMap id

/-- The dict returned by `streaks`. -/
structure StreakResult where
  current_streak : Nat
  current_type : String
  longest_win : Nat
  longest_loss : Nat
deriving DecidableEq, Repr

/-- One iteration of the longest-streak loop of `streaks`
(src/analytics.py lines 131-140); state is
`(longest_win, longest_loss, run, prev)`. -/
def longestRunsStep (st : Nat × Nat × Nat × Option Bool) (v : Bool) :
    Nat × Nat × Nat × Option Bool :=
  match st with
  | (lw, ll, run, prev) =>
    let run2 := if prev = some v then run + 1 else 1
    ((if v then max lw run2 else lw), (if v then ll else max ll run2), run2, some v)

/-- `streaks` (src/analytics.py lines 109-147). -/
def streaks (rows : List Row) : StreakResult :=
  let games := groupFirstGameWon rows
  match games.reverse with
  | [] => ⟨0, "N/A", 0, 0⟩
  | last :: _ =>
    let current := (games.reverse.takeWhile fun v => v == last).length
    let st := games.foldl longestRunsStep (0, 0, 0, none)
    ⟨current, if last then "Win" else "Loss", st.1, st.2.1⟩

/-- One output row of `rating_change_per_game`. -/
structure RatingRow where
  date : Int
  gameId : String
  yourRating : ℤ
  ratingChange : Option ℤ
  gameWon : Option Bool
deriving DecidableEq, Repr

/-- `df.sort_values("Date").groupby("Game Id").first().reset_index()`
restricted to the columns `rating_change_per_game` keeps: per game (in
ascending `Game Id` order) the group's first date and first non-null rating
and outcome. -/
def groupedGames (rows : List Row) : List (String × Int × Option ℤ × Option Bool) :=
  let s := sortValuesDate rows
  (groupKeysSorted s).filterMap fun k =>
    match s.filter (fun r => r.gameId == k) with
    | [] => none
    | g0 :: grest =>
      some (k, g0.date, (g0 :: grest).findSome? (·.yourRating),
        (g0 :: grest).findSome? (·.gameWon))

/-- `games["Your Rating"].diff()`: successive differences over the frame's
row order, `NaN` for the first row. -/
def diffRows : List (String × Int × ℤ × Option Bool) → Option ℤ → List RatingRow
  | [], _ => []
  | (k, d, r, w) :: rest, prev =>
    ⟨d, k, r, prev.map (fun p2 => r - p2), w⟩ :: diffRows rest (some r)

/-- `rating_change_per_game` (src/analytics.py lines 73-78). -/
def rating_change_per_game (rows : List Row) : List RatingRow :=
  let kept := (groupedGames rows).filterMap fun x =>
    match x with
    | (k, d, some r, w) => some (k, d, r, w)
    | (_, _, none, _) => none
  (diffRows kept none).drop 1

/-- Modelled from the spec: the date-ordered per-game outcome sequence
(first outcome per `gameId` in order of each game's first appearance after
sorting by date, nulls dropped) that the spec says streaks are computed
over. -/
def dateOrderedOutcomes_spec (rows : List Row) : List Bool :=
  let s := sortValuesDate rows
  (((s.map (·.gameId)).dedup).map fun k =>
    (s.filter fun r => r.gameId == k).findSome? (·.gameWon)).filterMap id

/-- Successive rating differences along a list of per-game ratings. -/
def diffPairs : (String × ℤ) → List (String × ℤ) → List (String × ℤ)
  | _, [] => []
  | prev, x :: xs => (x.1, x.2 - prev.2) :: diffPairs x xs

/-- Modelled from the spec: one row per game in date order (first row per
`gameId`), games with null rating dropped, deltas of consecutive games with
the first game excluded. -/
def rating_deltas_spec (rows : List Row) : List (String × ℤ) :=
  let s := sortValuesDate rows
  let firsts := ((s.map (·.gameId)).dedup).filterMap fun k =>
    match s.filter (fun r => r.gameId == k) with
    | [] => none
    | g0 :: _ => g0.yourRating.map (fun r => (k, r))
  match firsts with
  | [] => []
  | f0 :: frest => diffPairs f0 frest

/-! ### Cache persistence and dates (src/cache.py lines 16-37)

`to_flat_rows` stores `GameResult.date` — the raw ISO `startTime` string of
round 0 — so a freshly-synced table has a string-typed `Date` column.
`save_cache` (`to_json(orient="records", date_format="iso")`) writes a
string cell verbatim; `load_cache` then applies `pd.to_datetime` to the
column, turning each string into a datetime value (or, if parsing raises,
returning an empty table via the except branch). -/

/-- A flat record of a freshly-synced table: its date is still the raw ISO
string. -/
structure CacheRow where
  gameId : String
  roundNumber : Int
  date : String
deriving DecidableEq, Repr

/-- A flat record after `load_cache`: its date is a parsed datetime,
modelled as epoch seconds. -/
structure LoadedRow where
  gameId : String
  roundNumber : Int
  date : Int
deriving DecidableEq, Repr

/-- The value of a `Date` cell, tagged with its runtime type. -/
inductive DateVal where
  | dstr (s : String)
  | dts (t : Int)
deriving DecidableEq, Repr

/-- Decimal digit value of a character. -/
def digitVal (c : Char) : Option Nat :=
  if c.isDigit then some (c.toNat - 48) else none

/-- Two-digit decimal field. -/
def natOfDigits2 (a b : Char) : Option Nat := do
  let x ← digitVal a
  let y ← digitVal b
  pure (10 * x + y)

/-- Four-digit decimal field. -/
def natOfDigits4 (a b c d : Char) : Option Nat := do
  let x ← digitVal a
  let y ← digitVal b
  let z ← digitVal c
  let w ← digitVal d
  pure (1000 * x + 100 * y + 10 * z + w)

/-- Gregorian leap-year rule. -/
def isLeapYear (y : Nat) : Bool :=
  (y % 4 == 0 && y % 100 != 0) || (y % 400 == 0)

/-- Length of a month (1-12). -/
def monthLen (leap : Bool) : Nat → Nat
  | 1 => 31 | 2 => if leap then 29 else 28 | 3 => 31 | 4 => 30
  | 5 => 31 | 6 => 30 | 7 => 31 | 8 => 31 | 9 => 30 | 10 => 31
  | 11 => 30 | 12 => 31 | _ => 0

/-- Days from 1970-01-01 to the start of year `y`. -/
def daysBeforeYear (y : Nat) : Nat :=
  (List.range (y - 1970)).foldl
    (fun a i => a + (if isLeapYear (1970 + i) then 366 else 365)) 0

/-- Days from the start of the year to the start of month `m`. -/
def daysBeforeMonth (leap : Bool) (m : Nat) : Nat :=
  (List.range (m - 1)).foldl (fun a i => a + monthLen leap (i + 1)) 0

/-- Epoch seconds of a UTC civil time. -/
def epochSeconds (y mo d h mi s : Nat) : Int :=
  ((daysBeforeYear y + daysBeforeMonth (isLeapYear y) mo + (d - 1)) * 86400
    + h * 3600 + mi * 60 + s : Nat)

/-- `pd.to_datetime` on one timezone-aware ISO 8601 string of the shape the
feed produces (`YYYY-MM-DDTHH:MM:SS` with a `Z` or `+00:00` suffix):
the denoted instant in epoch seconds, or `none` when unparseable. -/
def parseIsoDate (s : String) : Option Int :=
  match s.data with
  | y1 :: y2 :: y3 :: y4 :: '-' :: m1 :: m2 :: '-' :: d1 :: d2 :: 'T' ::
      h1 :: h2 :: ':' :: n1 :: n2 :: ':' :: s1 :: s2 :: tz =>
    if tz = ['Z'] ∨ tz = ['+', '0', '0', ':', '0', '0'] then do
      let y ← natOfDigits4 y1 y2 y3 y4
      let mo ← natOfDigits2 m1 m2
      let d ← natOfDigits2 d1 d2
      let h ← natOfDigits2 h1 h2
      let mi ← natOfDigits2 n1 n2
      let ss ← natOfDigits2 s1 s2
      if 1970 ≤ y ∧ 1 ≤ mo ∧ mo ≤ 12 ∧ 1 ≤ d ∧ h ≤ 23 ∧ mi ≤ 59 ∧ ss ≤ 59 then
        some (epochSeconds y mo d h mi ss)
      else none
    else none
  | _ => none

/-- `to_json(date_format="iso")` on a string-typed `Date` cell: the string
is already serialized text and is written verbatim (the `iso` format only
applies to datetime columns). -/
def save_cache_dateCell (d : String) : String := d

/-- `pd.to_datetime` applied to the whole `Date` column: all-or-nothing
(a parse failure raises inside `load_cache`). -/
def parseAllDates : List CacheRow → Option (List LoadedRow)
  | [] => some []
  | r :: rs =>
    match parseIsoDate r.date with
    | none => none
    | some t => (parseAllDates rs).map (fun l => ⟨r.gameId, r.roundNumber, t⟩ :: l)

/-- `load_cache` on a saved table: parse the `Date` column, or return the
empty table when the conversion raises (the except branch). -/
def load_cache_dates (saved : List CacheRow) : List LoadedRow :=
  match parseAllDates saved with
  | some l => l
  | none => []

/-- Save a freshly-synced (string-dated) table and load it back. -/
def roundtrip_dates (rows : List CacheRow) : List LoadedRow :=
  load_cache_dates (rows.map fun r => { r with date := save_cache_dateCell r.date })

/-- The `Date` cells of a table before persistence. -/
def dateObsBefore (rows : List CacheRow) : List DateVal :=
  rows.map fun r => .dstr r.date

/-- The `Date` cells of a table after reloading. -/
def dateObsAfter (rows : List LoadedRow) : List DateVal :=
  rows.map fun r => .dts r.date

lemma mem_of_mem_dedupKeyFirst {a : Row} :
    ∀ {l : List Row}, a ∈ dedupKeyFirst l → a ∈ l := by
  intro l
  induction l using dedupKeyFirst.induct with
  | case1 => simp [dedupKeyFirst]
  | case2 r rs ih =>
    intro h
    rw [dedupKeyFirst] at h
    rcases List.mem_cons.mp h with h | h
    · exact h ▸ List.mem_cons_self _ _
    · exact List.mem_cons_of_mem _ (List.mem_of_mem_filter (ih h))

lemma nodup_keys_dedupKeyFirst :
    ∀ (l : List Row), ((dedupKeyFirst l).map keyOf).Nodup := by
  intro l
  induction l using dedupKeyFirst.induct with
  | case1 => simp [dedupKeyFirst]
  | case2 r rs ih =>
    rw [dedupKeyFirst]
    refine List.nodup_cons.mpr ⟨?_, ih⟩
    intro hmem
    rcases List.mem_map.mp hmem with ⟨s, hs, hkey⟩
    have hs' := mem_of_mem_dedupKeyFirst hs
    have := List.of_mem_filter hs'
    simp only [Bool.not_eq_true', decide_eq_false_iff_not] at this
    exact this hkey

lemma nodup_keys_sync_data (existing : List Row) (remote : List String)
    (fetch : String → List Row)
    (h : (existing.map keyOf).Nodup) :
    ((sync_data existing remote fetch).table.map keyOf).Nodup := by
  unfold sync_data
  by_cases he : (tokensToFetch existing remote).isEmpty
  · simpa [he] using h
  · simp only [he, if_false]
    exact nodup_keys_dedupKeyFirst _

lemma nodup_keys_syncFold (batches : List (List String × (String → List Row))) :
    ∀ init : List Row, (init.map keyOf).Nodup →
      ((syncFold init batches).map keyOf).Nodup := by
  induction batches with
  | nil => intro init h; simpa [syncFold] using h
  | cons b bs ih =>
    intro init h
    have : syncFold init (b :: bs) = syncFold (sync_data init b.1 b.2).table bs := rfl
    rw [this]
    exact ih _ (nodup_keys_sync_data init b.1 b.2 h)

/-- C1: for every sequence of merge operations on the cache table (each batch
an arbitrary remote token list with arbitrary fetch/flatten behaviour,
including re-fetching a match already present), the resulting table contains
no two flat records sharing the same `(gameId, roundNumber)` key. -/
theorem C1_merge_key_uniqueness
    (batches : List (List String × (String → List Row))) :
    ((syncFold [] batches).map keyOf).Nodup :=
  nodup_keys_syncFold batches [] (by simp)

/-- C8: when every remote token is already a `Game Id` of the existing table,
`sync_data` returns the existing table unchanged with a new-record count of 0
and does not reach the merge-and-persist path. -/
theorem C8_noop_sync (existing : List Row) (remote : List String)
    (fetch : String → List Row)
    (h : ∀ t ∈ remote, t ∈ existing.map (·.gameId)) :
    sync_data existing remote fetch = ⟨existing, 0, false⟩ := by
  have htf : tokensToFetch existing remote = [] := by
    apply List.filter_eq_nil_iff.mpr
    intro t ht
    simpa using h t ht
  unfold sync_data
  rw [htf]
  rfl

/-- C8 witness: a concrete table whose single game is re-listed remotely is
returned unchanged, with count 0 and no persistence. -/
theorem C8_noop_sync_witness :
    sync_data [⟨"g1", 1, 10, some true, some 1000⟩] ["g1"] (fun _ => []) =
      ⟨[⟨"g1", 1, 10, some true, some 1000⟩], 0, false⟩ :=
  C8_noop_sync _ _ _ (by decide)

/-- C10: whenever at least one unseen token exists, the new-record count
returned by `sync_data` equals the number of unseen tokens attempted, for
every fetch behaviour — including fetchers that fail or are rejected and
contribute zero rows. -/
theorem C10_count_is_tokens_attempted (existing : List Row)
    (remote : List String) (fetch : String → List Row)
    (h : tokensToFetch existing remote ≠ []) :
    (sync_data existing remote fetch).newCount =
      (tokensToFetch existing remote).length := by
  have hne : (tokensToFetch existing remote).isEmpty = false := by
    cases htf : tokensToFetch existing remote with
    | nil => exact absurd htf h
    | cons a l => rfl
  simp [sync_data, hne]

/-- C10 witness: two unseen tokens whose fetches both yield zero rows still
produce a new-record count of 2. -/
theorem C10_count_witness :
    tokensToFetch [] ["g1", "g2"] ≠ [] ∧
      (sync_data [] ["g1", "g2"] (fun _ => [])).newCount =
        (tokensToFetch [] ["g1", "g2"]).length :=
  ⟨by decide, C10_count_is_tokens_attempted [] ["g1", "g2"] (fun _ => []) (by decide)⟩

/-- C4 counterexample: a raw game with two teams, a present `gameId`, but a
zero-player team raises `IndexError` (the subscript `teams[0]["players"][0]`),
it does not return the `None` skip result the claim asserts. -/
theorem C4_zero_players_raises :
    process_game ⟨some [⟨[], none⟩, ⟨[], none⟩], some "g", none, none, none⟩ "me" =
      .error .indexError ∧
    process_game ⟨some [⟨[], none⟩, ⟨[], none⟩], some "g", none, none, none⟩ "me" ≠
      .ok none := by
  constructor
  · rfl
  · intro h
    rw [show process_game ⟨some [⟨[], none⟩, ⟨[], none⟩], some "g", none, none, none⟩
          "me" = .error .indexError from rfl] at h
    exact Except.noConfusion h

/-- C4 amended: `process_game` returns the `None` skip result when the payload
has fewer than two teams, and — provided team 0 has a first player carrying a
`playerId` — when the `gameId` is missing or empty; a team with zero players
instead raises `IndexError`, which the batch sync loop catches, so the record
is still skipped without aborting the batch. -/
theorem C4_null_paths :
    (∀ (g : RawGame) (pid : String),
        (g.teams.getD []).length < 2 → process_game g pid = .ok none) ∧
    (∀ (g : RawGame) (pid : String) (t0 t1 : RawTeam) (ts : List RawTeam)
        (p : RawPlayer) (ps : List RawPlayer) (pid0 : String),
        g.teams = some (t0 :: t1 :: ts) → t0.players = p :: ps →
        p.playerId = some pid0 →
        (g.gameId = none ∨ g.gameId = some "") →
        process_game g pid = .ok none) := by
  constructor
  · intro g pid h
    simp only [process_game]
    rw [if_pos h]
    rfl
  · intro g pid t0 t1 ts p ps pid0 hteams hplayers hpid hgid
    have hlen : ¬ ((g.teams.getD []).length < 2) := by
      rw [hteams]; simp
    have hgid' : (g.gameId = none ∨ g.gameId = some "") = True := by
      simp [hgid]
    by_cases hp : pid0 = pid <;>
      simp [process_game, hteams, hplayers, hpid, hp, hlen, hgid', listAt, getKey,
        Except.instMonad, Except.bind, Except.map, Except.pure]

/-- C4 witness for the amended claim: a one-team payload and a two-team
payload lacking a `gameId` both yield the `None` skip result. -/
theorem C4_null_paths_witness :
    process_game ⟨some [⟨[⟨some "me", none, none, none, none⟩], none⟩],
        some "g", none, none, none⟩ "me" = .ok none ∧
    process_game ⟨some [⟨[⟨some "me", none, none, none, none⟩], none⟩,
        ⟨[⟨some "op", none, none, none, none⟩], none⟩], none, none, none, none⟩
      "me" = .ok none :=
  ⟨C4_null_paths.1 _ "me" (by decide),
   C4_null_paths.2 _ "me" _ _ _ _ _ _ rfl rfl rfl (Or.inl rfl)⟩

/-- C5: `game_won_of` (the outcome derivation of `process_game`) is `some
true` iff my health > 0 and opponent health ≤ 0, `some false` iff the
reverse, `none` in every other case — in particular whenever either health is
missing — and is never `some true` when my health ≤ 0. -/
theorem C5_game_won_characterization (mh oh : Option ℚ) :
    (game_won_of mh oh = some true ↔
      ∃ m o, mh = some m ∧ oh = some o ∧ 0 < m ∧ o ≤ 0) ∧
    (game_won_of mh oh = some false ↔
      ∃ m o, mh = some m ∧ oh = some o ∧ 0 < o ∧ m ≤ 0) ∧
    ((mh = none ∨ oh = none) → game_won_of mh oh = none) ∧
    (∀ m, mh = some m → m ≤ 0 → game_won_of mh oh ≠ some true) := by
  cases mh with
  | none => simp [game_won_of]
  | some m =>
    cases oh with
    | none => simp [game_won_of]
    | some o =>
      refine ⟨?_, ?_, ?_, ?_⟩
      · simp only [game_won_of]
        split_ifs with h1 h2 <;> simp_all
      · simp only [game_won_of]
        split_ifs with h1 h2 <;> simp_all
      · rintro (h | h) <;> exact Option.noConfusion h
      · intro m' hm' hle
        obtain rfl : m' = m := by simpa using hm'.symm
        simp only [game_won_of]
        split_ifs with h1 h2
        · exact absurd h1.1 (not_lt.mpr hle)
        · simp
        · simp

/-- C5 witness: concrete healths exercising the win, loss and missing-health
branches of the characterization. -/
theorem C5_game_won_witness :
    game_won_of (some 100) (some 0) = some true ∧
    game_won_of (some 0) (some 50) = some false ∧
    game_won_of none (some 5) = none :=
  ⟨(C5_game_won_characterization (some 100) (some 0)).1.mpr
      ⟨100, 0, rfl, rfl, by norm_num, le_refl 0⟩,
   (C5_game_won_characterization (some 0) (some 50)).2.1.mpr
      ⟨0, 50, rfl, rfl, by norm_num, le_refl 0⟩,
   (C5_game_won_characterization none (some 5)).2.2.1 (Or.inl rfl)⟩

/-- C6: for every team payload with its (1v1) player, `_extract_rating`
returns exactly the spec's priority chain — competitive post-rating,
else ranked post-rating, else the raw rating only when nonzero, else `none`
(never 0), so a zero placement rating and an absent rating both yield
`none`. -/
theorem C6_extract_rating_priority (team : RawTeam) (p : RawPlayer)
    (ps : List RawPlayer) (h : team.players = p :: ps) :
    _extract_rating team = .ok (rating_priority_spec p) := by
  simp only [_extract_rating, h, listAt, Except.instMonad, Except.bind,
    rating_priority_spec]
  cases hpc : p.progressChange with
  | none =>
    simp only [Option.none_bind]
    cases hr : p.rating with
    | none => rfl
    | some b => by_cases hb : b = 0 <;> simp [hb] <;> rfl
  | some pc =>
    simp only [Option.some_bind]
    cases hcp : pc.competitiveProgress.bind (·.ratingAfter) with
    | some v => rfl
    | none =>
      cases hrs : pc.rankedSystemProgress.bind (·.ratingAfter) with
      | some v => rfl
      | none =>
        cases hr : p.rating with
        | none => rfl
        | some b => by_cases hb : b = 0 <;> simp [hb] <;> rfl

/-- C6 witness: a placement player (raw rating 0, no progress data) yields
`none`, and a player with only a nonzero raw rating yields that rating. -/
theorem C6_extract_rating_witness :
    _extract_rating ⟨[⟨some "me", none, none, none, some 0⟩], none⟩ =
      .ok (rating_priority_spec ⟨some "me", none, none, none, some 0⟩) ∧
    rating_priority_spec ⟨some "me", none, none, none, some 0⟩ = none ∧
    _extract_rating ⟨[⟨some "me", none, none, none, some 1200⟩], none⟩ =
      .ok (rating_priority_spec ⟨some "me", none, none, none, some 1200⟩) ∧
    rating_priority_spec ⟨some "me", none, none, none, some 1200⟩ = some 1200 :=
  ⟨C6_extract_rating_priority _ _ _ rfl, by decide,
   C6_extract_rating_priority _ _ _ rfl, by decide⟩

/-- C7: evaluating the extractor at the failing input.  A batched feed entry
whose wrapper's `payload` sub-object is not an object (here the number 5)
raises `AttributeError` inside `_is_duel` and aborts the whole page — the
valid duel entry after it is lost — although that same duel entry alone
yields its token. -/
theorem C7_malformed_wrapper_aborts :
    extract_duel_tokens [⟨.val (.arr [.obj [("payload", .num 5)]])⟩,
        ⟨.val (.obj [("gameMode", .str "Duels"), ("competitiveGameMode", .null),
          ("gameId", .str "g1")])⟩] none = .error .attributeError ∧
    extract_duel_tokens [⟨.val (.obj [("gameMode", .str "Duels"),
        ("competitiveGameMode", .null), ("gameId", .str "g1")])⟩] none =
      .ok [.str "g1"] :=
  ⟨rfl, rfl⟩

/-- C2: evaluating `streaks` at the failing input.  Game "b" (a win) predates
game "a" (a loss), so the date-ordered outcome sequence is `[true, false]`
and the claim requires a current streak of 1 of type Loss; but
`groupby("Game Id", sort=True)` reorders the groups lexicographically, so the
code scans `[false, true]` and reports a current streak of type Win.  On a
table whose `Game Id` order happens to agree with date order the trailing-run
and longest-run logic does yield the claimed `[T,T,F,T,T,T] ↦ (3, Win, 3, 1)`
result. -/
theorem C2_streaks_use_gameId_order :
    streaks [⟨"b", 1, 1, some true, none⟩, ⟨"a", 1, 2, some false, none⟩] =
      ⟨1, "Win", 1, 1⟩ ∧
    dateOrderedOutcomes_spec
        [⟨"b", 1, 1, some true, none⟩, ⟨"a", 1, 2, some false, none⟩] =
      [true, false] ∧
    streaks [⟨"a", 1, 1, some true, none⟩, ⟨"b", 1, 2, some true, none⟩,
        ⟨"c", 1, 3, some false, none⟩, ⟨"d", 1, 4, some true, none⟩,
        ⟨"e", 1, 5, some true, none⟩, ⟨"f", 1, 6, some true, none⟩] =
      ⟨3, "Win", 3, 1⟩ :=
  ⟨rfl, rfl, rfl⟩

/-- C3: evaluating `rating_change_per_game` at the failing input.  In date
order the games are `b (1000), a (1100), c (1050)`, so the claim requires the
delta series `a ↦ +100, c ↦ -50` with date-first game `b` excluded; but the
`groupby` reorder makes the code diff in `Game Id` order `a, b, c`, keeping
`b ↦ -100, c ↦ +50` and excluding `a` instead. -/
theorem C3_rating_change_uses_gameId_order :
    rating_change_per_game [⟨"b", 1, 1, none, some 1000⟩,
        ⟨"a", 1, 2, none, some 1100⟩, ⟨"c", 1, 3, none, some 1050⟩] =
      [⟨1, "b", 1000, some (-100), none⟩, ⟨3, "c", 1050, some 50, none⟩] ∧
    rating_deltas_spec [⟨"b", 1, 1, none, some 1000⟩,
        ⟨"a", 1, 2, none, some 1100⟩, ⟨"c", 1, 3, none, some 1050⟩] =
      [("a", 100), ("c", -50)] :=
  ⟨by decide, by decide⟩

lemma parseAllDates_eq_of_isSome (rows : List CacheRow)
    (h : ∀ r ∈ rows, (parseIsoDate r.date).isSome) :
    parseAllDates rows =
      some (rows.map fun r =>
        ⟨r.gameId, r.roundNumber, (parseIsoDate r.date).getD 0⟩) := by
  induction rows with
  | nil => rfl
  | cons r rs ih =>
    obtain ⟨t, ht⟩ := Option.isSome_iff_exists.mp (h r (List.mem_cons_self r rs))
    rw [parseAllDates, ht, ih fun x hx => h x (List.mem_cons_of_mem _ hx)]
    simp [ht]

/-- C9 counterexample: saving a freshly-synced one-row table (whose date is
the raw ISO string) and loading it back yields a record whose date is a
parsed datetime, not the original string — the same-type part of the claim
fails. -/
theorem C9_roundtrip_changes_date_type :
    dateObsAfter (roundtrip_dates [⟨"g1", 1, "2024-01-05T12:00:00+00:00"⟩]) =
      [DateVal.dts 1704456000] ∧
    dateObsBefore [⟨"g1", 1, "2024-01-05T12:00:00+00:00"⟩] =
      [DateVal.dstr "2024-01-05T12:00:00+00:00"] ∧
    dateObsAfter (roundtrip_dates [⟨"g1", 1, "2024-01-05T12:00:00+00:00"⟩]) ≠
      dateObsBefore [⟨"g1", 1, "2024-01-05T12:00:00+00:00"⟩] :=
  ⟨by decide, by decide, by decide⟩

/-- C9 amended: loading a saved freshly-synced table parses every string
date with `to_datetime`: each record comes back with the same `gameId` and
`roundNumber` and with its date replaced by the parsed instant the string
denotes — the denoted instant is preserved, the representation type
(string vs. datetime) is not. -/
theorem C9_load_parses_saved_dates (rows : List CacheRow)
    (h : ∀ r ∈ rows, (parseIsoDate r.date).isSome) :
    roundtrip_dates rows =
      rows.map fun r =>
        ⟨r.gameId, r.roundNumber, (parseIsoDate r.date).getD 0⟩ := by
  have hsave : rows.map (fun r => { r with date := save_cache_dateCell r.date }) =
      rows := by
    simp [save_cache_dateCell]
  rw [roundtrip_dates, hsave, load_cache_dates, parseAllDates_eq_of_isSome rows h]

/-- C9 witness: the amended claim at the concrete one-row table. -/
theorem C9_load_parses_saved_dates_witness :
    roundtrip_dates [⟨"g1", 1, "2024-01-05T12:00:00+00:00"⟩] =
      [⟨"g1", 1, 1704456000⟩] := by
  rw [C9_load_parses_saved_dates _ (by decide)]
  decide

end DuelsAnalyzer
